import Mathlib

/-!
Verification development for the MattsRep repository (two arcpy scripts:
src/clip_dem.py and src/ArthurGEOG567_Final.py).

Each script is a linear procedure that calls an external GIS toolbox.  We give
a shallow embedding: the behavior of the external toolbox on a given run is
captured by an environment record (which fields the converted table has,
whether the DEM path exists and its dataset type, the extents reported, and
which toolbox calls fail on this run), and each script becomes a function from
its environment to a trace of observable events (toolbox calls, user-facing
messages and errors, dataset deletions) together with an outcome (normal
completion, or a propagated exception carrying its message).  Python raise
statements are modelled by the Outcome.raised constructor; the sequencing of
statements by the runSeq combinator, which cuts the rest of the script off as
soon as an exception is raised.  Coordinates are modelled as rationals.
-/

namespace MattsRep

/-- An axis-aligned rectangle given by its bounds, as used for the point
extent and the DEM extent (arcpy Describe(...).extent). -/
structure Rect where
  xmin : ℚ
  ymin : ℚ
  xmax : ℚ
  ymax : ℚ
deriving DecidableEq

/-- Outcome of a script run: normal completion, or a propagated Python
exception carrying its message. -/
inductive Outcome where
  | success : Outcome
  | raised : String → Outcome
deriving DecidableEq

/-- Observable events of a script run: toolbox calls (with their interesting
arguments), user-facing messages (arcpy.AddMessage), user-facing errors
(arcpy.AddError), plain prints, dataset deletions (arcpy.Delete_management),
map-layer operations, output-parameter setting, and toolbox-call failures. -/
inductive Event where
  | toolCall : String → Event
  | clip : String → Rect → String → Event
  | slope : String → String → Event
  | aspect : String → String → Event
  | curvature : String → String → Event
  | hillshadeCall : String → Int → Int → String → Event
  | extract : String → List (String × String) → Event
  | addLayer : String → Bool → Event
  | moveLayer : String → String → Event
  | deleteData : String → Event
  | message : String → Event
  | errorMsg : String → Event
  | printMsg : String → Event
  | setParam : Nat → String → Event
  | toolFailed : String → Event
deriving DecidableEq

/-- A run fragment: the events it emits and how it ends. -/
abbrev Run := List Event × Outcome

/-- Sequential composition of run fragments: if the first fragment raised, the
second is never executed (Python exception propagation). -/
def runSeq (a b : Run) : Run :=
  match a.2 with
  | Outcome.success => (a.1 ++ b.1, b.2)
  | Outcome.raised _ => a

/- String constants appearing in the scripts. -/

def lonField : String := "Longitude"
def latField : String := "Latitude"
def lonLower : String := "longitude"
def latUpper : String := "LATITUDE"
def rasterDatasetType : String := "RasterDataset"
def fieldErrText : String := "CSV must contain fields Longitude and Latitude"
def tableToTableName : String := "TableToTable_conversion"
def xyTableToPointName : String := "XYTableToPoint"
def projectName : String := "Project"
def projectRasterName : String := "ProjectRaster"
def clipToolName : String := "Clip"
def slopeToolName : String := "Slope"
def aspectToolName : String := "Aspect"
def curvatureToolName : String := "Curvature"
def hillshadeToolName : String := "Hillshade"
def extractToolName : String := "ExtractMultiValuesToPoints"
def someToolName : String := "SomeTool_management"
def moveLayerName : String := "moveLayer"
def pathSep : String := "\\"
def tempTableName : String := "in_memory\\temp_table"
def tempFcName : String := "in_memory\\temp_fc_wgs84"
def projectedDemName : String := "in_memory\\projected_dem"
def demMissingPre : String := "DEM file at "
def demMissingPost : String := " does not exist."
def demTypePre : String := "The file at "
def demTypePost : String := " is not a valid raster dataset."
def overlapErrText : String :=
  "The extent of the points does not overlap with the extent of the DEM raster."
def clipFailText : String := "Failed to clip DEM"
def clipOkPre : String :=
  "DEM clipped successfully to the extent of the points and saved as "
def peXminPre : String := "Points extent: xmin="
def deXminPre : String := "DEM extent: xmin="
def yminMid : String := ", ymin="
def xmaxMid : String := ", xmax="
def ymaxMid : String := ", ymax="
def finalMsgPre : String := "Point feature class "
def finalMsgMid : String := " created in "
def finalMsgPostC : String := " with spatial reference matching DEM raster"
def finalMsgPostF : String := " with spatial reference Alberta 3TM 114 NAD 83"
def projectedPointsMsg : String := "Projected point feature class to Alberta 3TM 114 NAD 83"
def projectedDemMsg : String := "Projected DEM to Alberta 3TM 114"
def prFailText : String := "ProjectRaster failed"
def clippingMsg : String := "Clipping DEM to the extent of points..."
def clippedSavedPre : String := "Clipped DEM saved to "
def clipFailTextF : String := "Clip failed"
def calcSlopeMsg : String := "Calculating slope percent..."
def slopeSavedPre : String := "Slope percent raster saved to "
def slopeFailText : String := "Slope failed"
def calcAspectMsg : String := "Calculating aspect..."
def aspectSavedPre : String := "Aspect raster saved to "
def aspectFailText : String := "Aspect failed"
def calcCurvMsg : String := "Calculating slope curvature..."
def curvSavedPre : String := "Slope curvature raster saved to "
def curvFailText : String := "Curvature failed"
def genHillshadeMsg : String := "Generating hillshade..."
def hsSavedPre : String := "Hillshade raster saved to "
def hsFailText : String := "Hillshade failed"
def extractingMsg : String := "Extracting raster values to points..."
def extractedPre : String := "Raster values extracted to points feature class "
def extractFailText : String := "ExtractMultiValuesToPoints failed"
def elevationField : String := "Elevation"
def slopeField : String := "Slope"
def aspectField : String := "Aspect"
def curvatureField : String := "Curvature"
def slopeSuffix : String := "_slope"
def aspectSuffix : String := "_aspect"
def curvatureSuffix : String := "_curvature"
def hillshadeSuffix : String := "_hillshade"
def hsAddedMsg : String := "Hillshade raster added to the map."
def hsAddFailMsg : String := "Failed to add hillshade raster to the map."
def slopeAddedMsg : String := "Slope raster added to the map."
def slopeAddFailMsg : String := "Failed to add slope raster to the map."
def aspectAddedMsg : String := "Aspect raster added to the map."
def aspectAddFailMsg : String := "Failed to add aspect raster to the map."
def curvAddedMsg : String := "Curvature raster added to the map."
def curvAddFailMsg : String := "Failed to add curvature raster to the map."
def elevAddedMsg : String := "Elevation raster added to the map."
def elevAddFailMsg : String := "Failed to add elevation raster to the map."
def pointFcAddedMsg : String := "Point Feature Class added to the map."
def pointFcAddFailMsg : String := "Failed to add Point Feature Class to the map."
def layersBeforeMsg : String := "Layers before moving:"
def hsLayerPre : String := "Hillshade layer: "
def slopeLayerPre : String := "Slope layer: "
def aspectLayerPre : String := "Aspect layer: "
def curvLayerPre : String := "Curvature layer: "
def elevLayerPre : String := "Elevation layer: "
def moveFailText : String := "Error moving layers"
def rastersOrderedMsg : String :=
  "Rasters added to the map with hillshade at the top and elevation at the bottom"
def layersAddFailMsg : String := "Failed to add one or more layers to the map."
def pointFcAddedMsg2 : String := "Point feature class added to the map."
def pointTopMsg : String := "Point layer moved to the top of the map."
def movePointFailText : String := "Error moving the point layer to the top"
def pointFcAddFailMsg2 : String := "Failed to add point feature class to the map."
def layerOrderMsg : String := "Current layer order:"
def layerOrderSep : String := ": "
def someToolErrText : String := "Unexpected error"
def tempRemovedMsg : String := "Temporary datasets removed."
def scriptFailedPre : String := "Script failed with error: "
def pos1 : String := "1"
def pos2 : String := "2"
def pos3 : String := "3"
def pos4 : String := "4"
def pos5 : String := "5"
def posTop : String := "TOP"

/-- os.path.join on the Windows paths used by the scripts. -/
def joinPath (a b : String) : String := a ++ pathSep ++ b

/-- The buffer-expansion step, transliterating the sequential updates at
clip_dem.py lines 60-63 and ArthurGEOG567_Final.py lines 62-65
(xmin -= buffer; ymin -= buffer; xmax += buffer; ymax += buffer). -/
def bufferSteps (r : Rect) (m : ℚ) : Rect :=
  let xmin := r.xmin
  let ymin := r.ymin
  let xmax := r.xmax
  let ymax := r.ymax
  let xmin := xmin - m
  let ymin := ymin - m
  let xmax := xmax + m
  let ymax := ymax + m
  { xmin := xmin, ymin := ymin, xmax := xmax, ymax := ymax }

/-- The buffer margin used by clip_dem.py (line 59). -/
def clipBuffer : ℚ := 200000

/-- The buffer margin used by ArthurGEOG567_Final.py (line 61). -/
def finalBuffer : ℚ := 5000

/-- Spec-side definition, written from the words of the spec (sections 4 and
8): the standard AABB disjoint test "reject when xmin > other.xmax OR
xmax < other.xmin OR ymin > other.ymax OR ymax < other.ymin". -/
def aabbDisjoint (a b : Rect) : Bool :=
  decide (a.xmin > b.xmax) || decide (a.xmax < b.xmin) ||
    decide (a.ymin > b.ymax) || decide (a.ymax < b.ymin)

/-- The two exact required field names, in the order the scripts check them
(for field in [x_field, y_field]). -/
def lonLatList : List String := [lonField, latField]

/-- The field-presence loop of both scripts: the first required field name not
among the field names of the converted table, if any (clip_dem.py lines 29-33,
ArthurGEOG567_Final.py lines 27-31; Python membership is exact string
equality). -/
def missingField (l : List String) : Option String :=
  lonLatList.find? (fun f => !(decide (f ∈ l)))

/-- External-toolbox behavior determining a run of clip_dem.py. -/
structure ClipEnv where
  fieldNames : List String
  demPath : String
  clippedDem : String
  outputGdb : String
  outputFc : String
  demExists : Bool
  demDataType : String
  pointsExtent : Rect
  demExtent : Rect
  clipFails : Bool

/-- clip_dem.py lines 20-52: TableToTable conversion, field-presence check,
XYTableToPoint, DEM existence and dataset-type validation, Project. -/
def ingestSecC (e : ClipEnv) : Run :=
  match missingField e.fieldNames with
  | some _ =>
      ([Event.toolCall tableToTableName, Event.errorMsg fieldErrText],
        Outcome.raised fieldErrText)
  | none =>
      if e.demExists = false then
        ([Event.toolCall tableToTableName, Event.toolCall xyTableToPointName,
          Event.errorMsg (demMissingPre ++ e.demPath ++ demMissingPost)],
          Outcome.raised (demMissingPre ++ e.demPath ++ demMissingPost))
      else if e.demDataType ≠ rasterDatasetType then
        ([Event.toolCall tableToTableName, Event.toolCall xyTableToPointName,
          Event.errorMsg (demTypePre ++ e.demPath ++ demTypePost)],
          Outcome.raised (demTypePre ++ e.demPath ++ demTypePost))
      else
        ([Event.toolCall tableToTableName, Event.toolCall xyTableToPointName,
          Event.toolCall projectName], Outcome.success)

/-- Rendering of a rectangle in the extent log messages of clip_dem.py
lines 67-68. -/
def extentText (pre : String) (r : Rect) : String :=
  pre ++ toString r.xmin ++ yminMid ++ toString r.ymin ++
    xmaxMid ++ toString r.xmax ++ ymaxMid ++ toString r.ymax

/-- The two extent log messages of clip_dem.py lines 67-68. -/
def extentMsgsC (e : ClipEnv) : List Event :=
  [Event.message (extentText peXminPre (bufferSteps e.pointsExtent clipBuffer)),
    Event.message (extentText deXminPre e.demExtent)]

/-- clip_dem.py lines 54-73: buffered point extent, extent log messages, and
the extent-overlap check (line 71), which reports an error and raises when the
buffered point rectangle and the DEM rectangle fail to intersect. -/
def overlapSecC (e : ClipEnv) : Run :=
  if (bufferSteps e.pointsExtent clipBuffer).xmin > e.demExtent.xmax
      ∨ (bufferSteps e.pointsExtent clipBuffer).xmax < e.demExtent.xmin
      ∨ (bufferSteps e.pointsExtent clipBuffer).ymin > e.demExtent.ymax
      ∨ (bufferSteps e.pointsExtent clipBuffer).ymax < e.demExtent.ymin then
    (extentMsgsC e ++ [Event.errorMsg overlapErrText], Outcome.raised overlapErrText)
  else
    (extentMsgsC e, Outcome.success)

/-- clip_dem.py lines 76-81: the Clip call inside try/except; a failure is
logged with AddError and re-raised. -/
def clipSecC (e : ClipEnv) : Run :=
  if e.clipFails then
    ([Event.clip e.demPath (bufferSteps e.pointsExtent clipBuffer) e.clippedDem,
      Event.toolFailed clipToolName, Event.errorMsg clipFailText],
      Outcome.raised clipFailText)
  else
    ([Event.clip e.demPath (bufferSteps e.pointsExtent clipBuffer) e.clippedDem,
      Event.message (clipOkPre ++ e.clippedDem)], Outcome.success)

/-- clip_dem.py lines 83-92: in-memory dataset cleanup, output parameters,
final message. -/
def cleanupSecC (e : ClipEnv) : Run :=
  ([Event.deleteData tempTableName, Event.deleteData tempFcName,
    Event.setParam 2 (joinPath e.outputGdb e.outputFc),
    Event.setParam 4 e.clippedDem,
    Event.message (finalMsgPre ++ e.outputFc ++ finalMsgMid ++ e.outputGdb ++ finalMsgPostC)],
    Outcome.success)

/-- The whole of clip_dem.py as a run over its environment. -/
def clipDemRun (e : ClipEnv) : Run :=
  runSeq (ingestSecC e) (runSeq (overlapSecC e) (runSeq (clipSecC e) (cleanupSecC e)))

/-- External-toolbox behavior determining a run of ArthurGEOG567_Final.py:
table fields, DEM validity, the point extent, which toolbox calls fail on this
run, which addDataFromPath calls return a truthy layer, the layer names the
map session reports, and the map layer listing. -/
structure FinalEnv where
  fieldNames : List String
  demPath : String
  clippedDem : String
  outputGdb : String
  outputFc : String
  demExists : Bool
  demDataType : String
  pointsExtent : Rect
  projectRasterFails : Bool
  clipFails : Bool
  slopeFails : Bool
  aspectFails : Bool
  curvatureFails : Bool
  hillshadeFails : Bool
  extractFails : Bool
  hillshadeAdded : Bool
  slopeAdded : Bool
  aspectAdded : Bool
  curvatureAdded : Bool
  elevationAdded : Bool
  pointAdded : Bool
  pointAdded2 : Bool
  moveLayersFails : Bool
  movePointFails : Bool
  someToolFails : Bool
  nameOf : String → String
  mapLayers : List String

/-- os.path.join(output_gdb, output_fc). -/
def fcPathOf (e : FinalEnv) : String := joinPath e.outputGdb e.outputFc

/-- Output path of the slope raster (ArthurGEOG567_Final.py line 82). -/
def slopeRasterPath (e : FinalEnv) : String :=
  joinPath e.outputGdb (e.outputFc ++ slopeSuffix)

/-- Output path of the aspect raster (line 83). -/
def aspectRasterPath (e : FinalEnv) : String :=
  joinPath e.outputGdb (e.outputFc ++ aspectSuffix)

/-- Output path of the curvature raster (line 84). -/
def curvatureRasterPath (e : FinalEnv) : String :=
  joinPath e.outputGdb (e.outputFc ++ curvatureSuffix)

/-- Output path of the hillshade raster (line 85). -/
def hillshadeRasterPath (e : FinalEnv) : String :=
  joinPath e.outputGdb (e.outputFc ++ hillshadeSuffix)

/-- ArthurGEOG567_Final.py lines 18-48: TableToTable conversion,
field-presence check, XYTableToPoint, DEM validation, Project (with its
message). -/
def ingestSecF (e : FinalEnv) : Run :=
  match missingField e.fieldNames with
  | some _ =>
      ([Event.toolCall tableToTableName, Event.errorMsg fieldErrText],
        Outcome.raised fieldErrText)
  | none =>
      if e.demExists = false then
        ([Event.toolCall tableToTableName, Event.toolCall xyTableToPointName,
          Event.errorMsg (demMissingPre ++ e.demPath ++ demMissingPost)],
          Outcome.raised (demMissingPre ++ e.demPath ++ demMissingPost))
      else if e.demDataType ≠ rasterDatasetType then
        ([Event.toolCall tableToTableName, Event.toolCall xyTableToPointName,
          Event.errorMsg (demTypePre ++ e.demPath ++ demTypePost)],
          Outcome.raised (demTypePre ++ e.demPath ++ demTypePost))
      else
        ([Event.toolCall tableToTableName, Event.toolCall xyTableToPointName,
          Event.toolCall projectName, Event.message projectedPointsMsg],
          Outcome.success)

/-- ArthurGEOG567_Final.py lines 50-53: ProjectRaster into
in_memory\projected_dem; a failure propagates (no local handler). -/
def projectRasterSec (e : FinalEnv) : Run :=
  if e.projectRasterFails then
    ([Event.toolCall projectRasterName, Event.toolFailed projectRasterName],
      Outcome.raised prFailText)
  else
    ([Event.toolCall projectRasterName, Event.message projectedDemMsg],
      Outcome.success)

/-- ArthurGEOG567_Final.py lines 55-78: buffered extent and the Clip call; a
failure propagates (no local handler). -/
def clipSecF (e : FinalEnv) : Run :=
  if e.clipFails then
    ([Event.message clippingMsg,
      Event.clip projectedDemName (bufferSteps e.pointsExtent finalBuffer) e.clippedDem,
      Event.toolFailed clipToolName], Outcome.raised clipFailTextF)
  else
    ([Event.message clippingMsg,
      Event.clip projectedDemName (bufferSteps e.pointsExtent finalBuffer) e.clippedDem,
      Event.message (clippedSavedPre ++ e.clippedDem)], Outcome.success)

/-- ArthurGEOG567_Final.py lines 87-90: Slope from the clipped DEM. -/
def slopeSec (e : FinalEnv) : Run :=
  if e.slopeFails then
    ([Event.message calcSlopeMsg, Event.slope e.clippedDem (slopeRasterPath e),
      Event.toolFailed slopeToolName], Outcome.raised slopeFailText)
  else
    ([Event.message calcSlopeMsg, Event.slope e.clippedDem (slopeRasterPath e),
      Event.message (slopeSavedPre ++ slopeRasterPath e)], Outcome.success)

/-- ArthurGEOG567_Final.py lines 92-95: Aspect from the clipped DEM. -/
def aspectSec (e : FinalEnv) : Run :=
  if e.aspectFails then
    ([Event.message calcAspectMsg, Event.aspect e.clippedDem (aspectRasterPath e),
      Event.toolFailed aspectToolName], Outcome.raised aspectFailText)
  else
    ([Event.message calcAspectMsg, Event.aspect e.clippedDem (aspectRasterPath e),
      Event.message (aspectSavedPre ++ aspectRasterPath e)], Outcome.success)

/-- ArthurGEOG567_Final.py lines 97-100: Curvature from the clipped DEM. -/
def curvatureSec (e : FinalEnv) : Run :=
  if e.curvatureFails then
    ([Event.message calcCurvMsg, Event.curvature e.clippedDem (curvatureRasterPath e),
      Event.toolFailed curvatureToolName], Outcome.raised curvFailText)
  else
    ([Event.message calcCurvMsg, Event.curvature e.clippedDem (curvatureRasterPath e),
      Event.message (curvSavedPre ++ curvatureRasterPath e)], Outcome.success)

/-- ArthurGEOG567_Final.py lines 102-105: Hillshade from the clipped DEM with
the literal arguments azimuth=315, altitude=45. -/
def hillshadeSec (e : FinalEnv) : Run :=
  if e.hillshadeFails then
    ([Event.message genHillshadeMsg,
      Event.hillshadeCall e.clippedDem 315 45 (hillshadeRasterPath e),
      Event.toolFailed hillshadeToolName], Outcome.raised hsFailText)
  else
    ([Event.message genHillshadeMsg,
      Event.hillshadeCall e.clippedDem 315 45 (hillshadeRasterPath e),
      Event.message (hsSavedPre ++ hillshadeRasterPath e)], Outcome.success)

/-- The raster/field pairs passed to ExtractMultiValuesToPoints
(ArthurGEOG567_Final.py lines 109-114): the clipped DEM, slope, aspect and
curvature rasters; the hillshade raster is not in this list. -/
def extractList (e : FinalEnv) : List (String × String) :=
  [(e.clippedDem, elevationField), (slopeRasterPath e, slopeField),
    (aspectRasterPath e, aspectField), (curvatureRasterPath e, curvatureField)]

/-- ArthurGEOG567_Final.py lines 107-116: ExtractMultiValuesToPoints on the
output point feature class. -/
def extractSec (e : FinalEnv) : Run :=
  if e.extractFails then
    ([Event.message extractingMsg, Event.extract (fcPathOf e) (extractList e),
      Event.toolFailed extractToolName], Outcome.raised extractFailText)
  else
    ([Event.message extractingMsg, Event.extract (fcPathOf e) (extractList e),
      Event.message (extractedPre ++ fcPathOf e)], Outcome.success)

/-- One addDataFromPath call followed by its truthiness check (the pattern of
ArthurGEOG567_Final.py lines 123-151). -/
def addOne (path : String) (ok : Bool) (okMsg failMsg : String) : List Event :=
  Event.addLayer path ok ::
    (if ok then [Event.message okMsg] else [Event.errorMsg failMsg])

/-- ArthurGEOG567_Final.py lines 118-157: adding the five raster layers and
the point feature class to the map.  Note lines 153-157: after adding the
point feature class, the script tests elevation_layer (not output_fc_layer)
to decide which message to report. -/
def addLayersSec (e : FinalEnv) : Run :=
  (addOne (hillshadeRasterPath e) e.hillshadeAdded hsAddedMsg hsAddFailMsg ++
    addOne (slopeRasterPath e) e.slopeAdded slopeAddedMsg slopeAddFailMsg ++
    addOne (aspectRasterPath e) e.aspectAdded aspectAddedMsg aspectAddFailMsg ++
    addOne (curvatureRasterPath e) e.curvatureAdded curvAddedMsg curvAddFailMsg ++
    addOne e.clippedDem e.elevationAdded elevAddedMsg elevAddFailMsg ++
    (Event.addLayer (fcPathOf e) e.pointAdded ::
      (if e.elevationAdded then [Event.message pointFcAddedMsg]
        else [Event.errorMsg pointFcAddFailMsg])),
    Outcome.success)

/-- The condition of ArthurGEOG567_Final.py line 161: all five raster layers
were added. -/
def allLayersAdded (e : FinalEnv) : Bool :=
  e.hillshadeAdded && e.slopeAdded && e.aspectAdded && e.curvatureAdded && e.elevationAdded

/-- The layer-name prints of ArthurGEOG567_Final.py lines 162-167. -/
def movePrints (e : FinalEnv) : List Event :=
  [Event.printMsg layersBeforeMsg,
    Event.printMsg (hsLayerPre ++ e.nameOf (hillshadeRasterPath e)),
    Event.printMsg (slopeLayerPre ++ e.nameOf (slopeRasterPath e)),
    Event.printMsg (aspectLayerPre ++ e.nameOf (aspectRasterPath e)),
    Event.printMsg (curvLayerPre ++ e.nameOf (curvatureRasterPath e)),
    Event.printMsg (elevLayerPre ++ e.nameOf e.clippedDem)]

/-- ArthurGEOG567_Final.py lines 159-179: reorder the raster layers; a
moveLayer failure is logged with AddError and re-raised. -/
def moveSec (e : FinalEnv) : Run :=
  if allLayersAdded e then
    if e.moveLayersFails then
      (movePrints e ++ [Event.toolFailed moveLayerName, Event.errorMsg moveFailText],
        Outcome.raised moveFailText)
    else
      (movePrints e ++
        [Event.moveLayer (hillshadeRasterPath e) pos1,
          Event.moveLayer (slopeRasterPath e) pos2,
          Event.moveLayer (aspectRasterPath e) pos3,
          Event.moveLayer (curvatureRasterPath e) pos4,
          Event.moveLayer e.clippedDem pos5,
          Event.message rastersOrderedMsg], Outcome.success)
  else
    ([Event.errorMsg layersAddFailMsg], Outcome.success)

/-- ArthurGEOG567_Final.py lines 181-192: the second attempt to add the point
feature class; moving it to the top is logged-and-re-raised on failure. -/
def point2Sec (e : FinalEnv) : Run :=
  if e.pointAdded2 then
    if e.movePointFails then
      ([Event.addLayer (fcPathOf e) e.pointAdded2, Event.message pointFcAddedMsg2,
        Event.toolFailed moveLayerName, Event.errorMsg movePointFailText],
        Outcome.raised movePointFailText)
    else
      ([Event.addLayer (fcPathOf e) e.pointAdded2, Event.message pointFcAddedMsg2,
        Event.moveLayer (fcPathOf e) posTop, Event.message pointTopMsg],
        Outcome.success)
  else
    ([Event.addLayer (fcPathOf e) e.pointAdded2, Event.errorMsg pointFcAddFailMsg2],
      Outcome.success)

/-- ArthurGEOG567_Final.py lines 194-197: print the current layer order. -/
def layerOrderSec (e : FinalEnv) : Run :=
  (Event.message layerOrderMsg ::
    e.mapLayers.enum.map (fun p => Event.message (toString p.1 ++ layerOrderSep ++ p.2)),
    Outcome.success)

/-- ArthurGEOG567_Final.py lines 199-207: the SomeTool_management call whose
try/except catches any failure, prints it, and does NOT re-raise, so execution
continues. -/
def someToolSec (e : FinalEnv) : Run :=
  if e.someToolFails then
    ([Event.toolCall someToolName, Event.toolFailed someToolName,
      Event.printMsg someToolErrText], Outcome.success)
  else
    ([Event.toolCall someToolName], Outcome.success)

/-- ArthurGEOG567_Final.py lines 209-220: cleanup of the three in-memory
datasets, output parameters, final message. -/
def cleanupSecF (e : FinalEnv) : Run :=
  ([Event.deleteData tempTableName, Event.deleteData tempFcName,
    Event.deleteData projectedDemName, Event.message tempRemovedMsg,
    Event.setParam 2 (fcPathOf e), Event.setParam 4 e.clippedDem,
    Event.message (finalMsgPre ++ e.outputFc ++ finalMsgMid ++ e.outputGdb ++ finalMsgPostF)],
    Outcome.success)

/-- The body of the outer try of ArthurGEOG567_Final.py (lines 17-220). -/
def finalInner (e : FinalEnv) : Run :=
  runSeq (ingestSecF e) (runSeq (projectRasterSec e) (runSeq (clipSecF e)
    (runSeq (slopeSec e) (runSeq (aspectSec e) (runSeq (curvatureSec e)
    (runSeq (hillshadeSec e) (runSeq (extractSec e) (runSeq (addLayersSec e)
    (runSeq (moveSec e) (runSeq (point2Sec e) (runSeq (layerOrderSec e)
    (runSeq (someToolSec e) (cleanupSecF e)))))))))))))

/-- The whole of ArthurGEOG567_Final.py: the outer except (lines 222-224)
logs any propagated exception with AddError and re-raises it. -/
def finalRun (e : FinalEnv) : Run :=
  match (finalInner e).2 with
  | Outcome.success => finalInner e
  | Outcome.raised m =>
      ((finalInner e).1 ++ [Event.errorMsg (scriptFailedPre ++ m)], Outcome.raised m)

/-- All raster paths passed to the sampling call (ExtractMultiValuesToPoints)
anywhere in a trace. -/
def sampledInputs (tr : List Event) : List String :=
  tr.foldr (fun x acc =>
    match x with
    | Event.extract _ rs => rs.map Prod.fst ++ acc
    | _ => acc) []

/- Concrete environments used by witnesses and counterexamples. -/

def demPathEx : String := "dem.tif"
def clippedDemEx : String := "clip.tif"
def gdbEx : String := "out.gdb"
def fcEx : String := "pts"
def layerNameEx : String := "layer"

/-- A fully well-behaved run of clip_dem.py: required fields present, valid
DEM, overlapping extents, Clip succeeds. -/
def goodEnvC : ClipEnv :=
  { fieldNames := [lonField, latField]
    demPath := demPathEx
    clippedDem := clippedDemEx
    outputGdb := gdbEx
    outputFc := fcEx
    demExists := true
    demDataType := rasterDatasetType
    pointsExtent := { xmin := 0, ymin := 0, xmax := 10, ymax := 10 }
    demExtent := { xmin := -300000, ymin := -300000, xmax := 300000, ymax := 300000 }
    clipFails := false }

/-- A fully well-behaved run of ArthurGEOG567_Final.py: every tool succeeds
and every layer add returns a truthy layer. -/
def goodEnvF : FinalEnv :=
  { fieldNames := [lonField, latField]
    demPath := demPathEx
    clippedDem := clippedDemEx
    outputGdb := gdbEx
    outputFc := fcEx
    demExists := true
    demDataType := rasterDatasetType
    pointsExtent := { xmin := 0, ymin := 0, xmax := 10, ymax := 10 }
    projectRasterFails := false
    clipFails := false
    slopeFails := false
    aspectFails := false
    curvatureFails := false
    hillshadeFails := false
    extractFails := false
    hillshadeAdded := true
    slopeAdded := true
    aspectAdded := true
    curvatureAdded := true
    elevationAdded := true
    pointAdded := true
    pointAdded2 := true
    moveLayersFails := false
    movePointFails := false
    someToolFails := false
    nameOf := fun _ => layerNameEx
    mapLayers := [] }

/-- Like goodEnvF but the SomeTool_management call fails. -/
def someToolFailEnvF : FinalEnv := { goodEnvF with someToolFails := true }

/-- Like goodEnvF but the first addDataFromPath of the point feature class
returns a falsy layer. -/
def pointFailEnvF : FinalEnv := { goodEnvF with pointAdded := false }

/-- clip_dem.py environment whose table has only lowercase/uppercase variants
of the required field names. -/
def caseEnvC : ClipEnv := { goodEnvC with fieldNames := [lonLower, latUpper] }

/-- ArthurGEOG567_Final.py environment whose table has only case variants of
the required field names. -/
def caseEnvF : FinalEnv := { goodEnvF with fieldNames := [lonLower, latUpper] }

/-- clip_dem.py environment whose table lacks both required fields. -/
def badFieldsEnvC : ClipEnv := { goodEnvC with fieldNames := [] }

/-- ArthurGEOG567_Final.py environment whose table lacks both required
fields. -/
def badFieldsEnvF : FinalEnv := { goodEnvF with fieldNames := [] }

/-- clip_dem.py environment whose DEM path does not exist. -/
def noDemEnvC : ClipEnv := { goodEnvC with demExists := false }

/-- ArthurGEOG567_Final.py environment whose DEM path does not exist. -/
def noDemEnvF : FinalEnv := { goodEnvF with demExists := false }

/-! Basic lemmas about the sequencing combinator and the outer exception
wrapper. -/

theorem runSeq_snd_success {a b : Run} (h : (runSeq a b).2 = Outcome.success) :
    a.2 = Outcome.success ∧ b.2 = Outcome.success := by
  obtain ⟨tr, o⟩ := a
  cases o with
  | success => exact ⟨rfl, by simpa [runSeq] using h⟩
  | raised m => simp [runSeq] at h

theorem runSeq_fst_of_success {a b : Run} (h : a.2 = Outcome.success) :
    (runSeq a b).1 = a.1 ++ b.1 := by
  obtain ⟨tr, o⟩ := a
  cases o with
  | success => simp [runSeq]
  | raised m => simp at h

theorem runSeq_mem_split {x : Event} {a b : Run} (h : x ∈ (runSeq a b).1) :
    x ∈ a.1 ∨ x ∈ b.1 := by
  obtain ⟨tr, o⟩ := a
  cases o with
  | success => simpa [runSeq] using h
  | raised m => exact Or.inl (by simpa [runSeq] using h)

theorem runSeq_mem_left {x : Event} {a b : Run} (h : x ∈ a.1) :
    x ∈ (runSeq a b).1 := by
  obtain ⟨tr, o⟩ := a
  cases o with
  | success => simp [runSeq]; exact Or.inl h
  | raised m => simpa [runSeq] using h

theorem runSeq_mem_right {x : Event} {a b : Run} (ha : a.2 = Outcome.success)
    (h : x ∈ b.1) : x ∈ (runSeq a b).1 := by
  obtain ⟨tr, o⟩ := a
  cases o with
  | success => simp [runSeq]; exact Or.inr h
  | raised m => simp at ha

theorem runSeq_of_raised {a : Run} (b : Run) {tr : List Event} {m : String}
    (h : a = (tr, Outcome.raised m)) : runSeq a b = (tr, Outcome.raised m) := by
  subst h; simp [runSeq]

theorem finalRun_success {e : FinalEnv} (h : (finalRun e).2 = Outcome.success) :
    (finalInner e).2 = Outcome.success ∧ (finalRun e).1 = (finalInner e).1 := by
  cases hfi : (finalInner e).2 with
  | success => simp [finalRun, hfi]
  | raised m => simp [finalRun, hfi] at h

theorem finalRun_mem_of_inner {e : FinalEnv} {x : Event}
    (h : x ∈ (finalInner e).1) : x ∈ (finalRun e).1 := by
  cases hfi : (finalInner e).2 with
  | success => simpa [finalRun, hfi] using h
  | raised m => simp [finalRun, hfi]; exact Or.inl h

theorem finalRun_mem_split {e : FinalEnv} {x : Event}
    (h : x ∈ (finalRun e).1) :
    x ∈ (finalInner e).1 ∨ ∃ s, x = Event.errorMsg s := by
  cases hfi : (finalInner e).2 with
  | success => exact Or.inl (by simpa [finalRun, hfi] using h)
  | raised m =>
      simp [finalRun, hfi] at h
      rcases h with h | h
      · exact Or.inl h
      · exact Or.inr ⟨_, h⟩

theorem finalRun_raised_of_inner {e : FinalEnv} {tr : List Event} {m : String}
    (h : finalInner e = (tr, Outcome.raised m)) :
    finalRun e = (tr ++ [Event.errorMsg (scriptFailedPre ++ m)], Outcome.raised m) := by
  simp [finalRun, h]

/-! Lemmas about the field-presence check. -/

theorem missingField_none {l : List String} (h1 : lonField ∈ l) (h2 : latField ∈ l) :
    missingField l = none := by
  simp [missingField, lonLatList, List.find?, h1, h2]

theorem missingField_isSome {l : List String}
    (h : lonField ∉ l ∨ latField ∉ l) : ∃ f, missingField l = some f := by
  by_cases hl : lonField ∈ l
  · have hlat : latField ∉ l := h.resolve_left (not_not_intro hl)
    exact ⟨latField, by simp [missingField, lonLatList, List.find?, hl, hlat]⟩
  · exact ⟨lonField, by simp [missingField, lonLatList, List.find?, hl]⟩

/-! Lemmas computing the ingestion sections on each class of environment. -/

theorem ingestSecC_missing (e : ClipEnv)
    (h : lonField ∉ e.fieldNames ∨ latField ∉ e.fieldNames) :
    ingestSecC e = ([Event.toolCall tableToTableName, Event.errorMsg fieldErrText],
      Outcome.raised fieldErrText) := by
  obtain ⟨f, hf⟩ := missingField_isSome h
  simp [ingestSecC, hf]

theorem ingestSecC_noDem (e : ClipEnv)
    (h1 : lonField ∈ e.fieldNames) (h2 : latField ∈ e.fieldNames)
    (h3 : e.demExists = false) :
    ingestSecC e = ([Event.toolCall tableToTableName, Event.toolCall xyTableToPointName,
      Event.errorMsg (demMissingPre ++ e.demPath ++ demMissingPost)],
      Outcome.raised (demMissingPre ++ e.demPath ++ demMissingPost)) := by
  simp [ingestSecC, missingField_none h1 h2, h3]

theorem ingestSecC_badType (e : ClipEnv)
    (h1 : lonField ∈ e.fieldNames) (h2 : latField ∈ e.fieldNames)
    (h3 : e.demExists = true) (h4 : e.demDataType ≠ rasterDatasetType) :
    ingestSecC e = ([Event.toolCall tableToTableName, Event.toolCall xyTableToPointName,
      Event.errorMsg (demTypePre ++ e.demPath ++ demTypePost)],
      Outcome.raised (demTypePre ++ e.demPath ++ demTypePost)) := by
  simp [ingestSecC, missingField_none h1 h2, h3, h4]

theorem ingestSecC_ok (e : ClipEnv)
    (h1 : lonField ∈ e.fieldNames) (h2 : latField ∈ e.fieldNames)
    (h3 : e.demExists = true) (h4 : e.demDataType = rasterDatasetType) :
    ingestSecC e = ([Event.toolCall tableToTableName, Event.toolCall xyTableToPointName,
      Event.toolCall projectName], Outcome.success) := by
  simp [ingestSecC, missingField_none h1 h2, h3, h4]

theorem ingestSecF_missing (e : FinalEnv)
    (h : lonField ∉ e.fieldNames ∨ latField ∉ e.fieldNames) :
    ingestSecF e = ([Event.toolCall tableToTableName, Event.errorMsg fieldErrText],
      Outcome.raised fieldErrText) := by
  obtain ⟨f, hf⟩ := missingField_isSome h
  simp [ingestSecF, hf]

theorem ingestSecF_noDem (e : FinalEnv)
    (h1 : lonField ∈ e.fieldNames) (h2 : latField ∈ e.fieldNames)
    (h3 : e.demExists = false) :
    ingestSecF e = ([Event.toolCall tableToTableName, Event.toolCall xyTableToPointName,
      Event.errorMsg (demMissingPre ++ e.demPath ++ demMissingPost)],
      Outcome.raised (demMissingPre ++ e.demPath ++ demMissingPost)) := by
  simp [ingestSecF, missingField_none h1 h2, h3]

theorem ingestSecF_badType (e : FinalEnv)
    (h1 : lonField ∈ e.fieldNames) (h2 : latField ∈ e.fieldNames)
    (h3 : e.demExists = true) (h4 : e.demDataType ≠ rasterDatasetType) :
    ingestSecF e = ([Event.toolCall tableToTableName, Event.toolCall xyTableToPointName,
      Event.errorMsg (demTypePre ++ e.demPath ++ demTypePost)],
      Outcome.raised (demTypePre ++ e.demPath ++ demTypePost)) := by
  simp [ingestSecF, missingField_none h1 h2, h3, h4]

theorem ingestSecF_ok (e : FinalEnv)
    (h1 : lonField ∈ e.fieldNames) (h2 : latField ∈ e.fieldNames)
    (h3 : e.demExists = true) (h4 : e.demDataType = rasterDatasetType) :
    ingestSecF e = ([Event.toolCall tableToTableName, Event.toolCall xyTableToPointName,
      Event.toolCall projectName, Event.message projectedPointsMsg],
      Outcome.success) := by
  simp [ingestSecF, missingField_none h1 h2, h3, h4]

/-! The AABB disjoint test, spec side versus run condition. -/

theorem aabbDisjoint_true_iff (a b : Rect) :
    aabbDisjoint a b = true ↔
      (a.xmin > b.xmax ∨ a.xmax < b.xmin ∨ a.ymin > b.ymax ∨ a.ymax < b.ymin) := by
  simp [aabbDisjoint, or_assoc]

theorem aabbDisjoint_false_iff (a b : Rect) :
    aabbDisjoint a b = false ↔
      ¬ (a.xmin > b.xmax ∨ a.xmax < b.xmin ∨ a.ymin > b.ymax ∨ a.ymax < b.ymin) := by
  rw [← Bool.not_eq_true, aabbDisjoint_true_iff]

theorem runSeq_of_success {a : Run} (b : Run) (ha : a.2 = Outcome.success) :
    runSeq a b = (a.1 ++ b.1, b.2) := by
  obtain ⟨tr, o⟩ := a
  cases o with
  | success => simp [runSeq]
  | raised m => simp at ha

/-! Which kinds of events each section can emit: no section except the
failure branches emits a toolFailed event, and only the hillshade section
emits a hillshadeCall event. -/

theorem tf_not_ingestC (e : ClipEnv) (n : String) :
    Event.toolFailed n ∉ (ingestSecC e).1 := by
  unfold ingestSecC
  cases missingField e.fieldNames with
  | some f => simp
  | none => split_ifs <;> simp

theorem tf_not_overlapC (e : ClipEnv) (n : String) :
    Event.toolFailed n ∉ (overlapSecC e).1 := by
  unfold overlapSecC
  split_ifs <;> simp [extentMsgsC]

theorem tf_not_clipC (e : ClipEnv) (n : String)
    (h : (clipSecC e).2 = Outcome.success) :
    Event.toolFailed n ∉ (clipSecC e).1 := by
  unfold clipSecC at h ⊢
  split_ifs at h ⊢ <;> simp_all

theorem tf_not_cleanupC (e : ClipEnv) (n : String) :
    Event.toolFailed n ∉ (cleanupSecC e).1 := by
  simp [cleanupSecC]

theorem tf_not_ingestF (e : FinalEnv) (n : String) :
    Event.toolFailed n ∉ (ingestSecF e).1 := by
  unfold ingestSecF
  cases missingField e.fieldNames with
  | some f => simp
  | none => split_ifs <;> simp

theorem tf_not_projectRaster (e : FinalEnv) (n : String)
    (h : (projectRasterSec e).2 = Outcome.success) :
    Event.toolFailed n ∉ (projectRasterSec e).1 := by
  unfold projectRasterSec at h ⊢
  split_ifs at h ⊢ <;> simp_all

theorem tf_not_clipF (e : FinalEnv) (n : String)
    (h : (clipSecF e).2 = Outcome.success) :
    Event.toolFailed n ∉ (clipSecF e).1 := by
  unfold clipSecF at h ⊢
  split_ifs at h ⊢ <;> simp_all

theorem tf_not_slope (e : FinalEnv) (n : String)
    (h : (slopeSec e).2 = Outcome.success) :
    Event.toolFailed n ∉ (slopeSec e).1 := by
  unfold slopeSec at h ⊢
  split_ifs at h ⊢ <;> simp_all

theorem tf_not_aspect (e : FinalEnv) (n : String)
    (h : (aspectSec e).2 = Outcome.success) :
    Event.toolFailed n ∉ (aspectSec e).1 := by
  unfold aspectSec at h ⊢
  split_ifs at h ⊢ <;> simp_all

theorem tf_not_curvature (e : FinalEnv) (n : String)
    (h : (curvatureSec e).2 = Outcome.success) :
    Event.toolFailed n ∉ (curvatureSec e).1 := by
  unfold curvatureSec at h ⊢
  split_ifs at h ⊢ <;> simp_all

theorem tf_not_hillshadeSec (e : FinalEnv) (n : String)
    (h : (hillshadeSec e).2 = Outcome.success) :
    Event.toolFailed n ∉ (hillshadeSec e).1 := by
  unfold hillshadeSec at h ⊢
  split_ifs at h ⊢ <;> simp_all

theorem tf_not_extract (e : FinalEnv) (n : String)
    (h : (extractSec e).2 = Outcome.success) :
    Event.toolFailed n ∉ (extractSec e).1 := by
  unfold extractSec at h ⊢
  split_ifs at h ⊢ <;> simp_all

theorem tf_not_addLayers (e : FinalEnv) (n : String) :
    Event.toolFailed n ∉ (addLayersSec e).1 := by
  unfold addLayersSec addOne
  split_ifs <;> simp

theorem tf_not_move (e : FinalEnv) (n : String)
    (h : (moveSec e).2 = Outcome.success) :
    Event.toolFailed n ∉ (moveSec e).1 := by
  unfold moveSec at h ⊢
  split_ifs at h ⊢ <;> simp_all [movePrints]

theorem tf_not_point2 (e : FinalEnv) (n : String)
    (h : (point2Sec e).2 = Outcome.success) :
    Event.toolFailed n ∉ (point2Sec e).1 := by
  unfold point2Sec at h ⊢
  split_ifs at h ⊢ <;> simp_all

theorem tf_not_layerOrder (e : FinalEnv) (n : String) :
    Event.toolFailed n ∉ (layerOrderSec e).1 := by
  simp [layerOrderSec]

theorem tf_someTool (e : FinalEnv) (n : String)
    (h : Event.toolFailed n ∈ (someToolSec e).1) : n = someToolName := by
  unfold someToolSec at h
  split_ifs at h <;> simp_all

theorem tf_not_cleanupF (e : FinalEnv) (n : String) :
    Event.toolFailed n ∉ (cleanupSecF e).1 := by
  simp [cleanupSecF]

theorem hs_not_ingestF (e : FinalEnv) (i : String) (az al : Int) (o : String) :
    Event.hillshadeCall i az al o ∉ (ingestSecF e).1 := by
  unfold ingestSecF
  cases missingField e.fieldNames with
  | some f => simp
  | none => split_ifs <;> simp

theorem hs_not_projectRaster (e : FinalEnv) (i : String) (az al : Int) (o : String) :
    Event.hillshadeCall i az al o ∉ (projectRasterSec e).1 := by
  unfold projectRasterSec
  split_ifs <;> simp

theorem hs_not_clipF (e : FinalEnv) (i : String) (az al : Int) (o : String) :
    Event.hillshadeCall i az al o ∉ (clipSecF e).1 := by
  unfold clipSecF
  split_ifs <;> simp

theorem hs_not_slope (e : FinalEnv) (i : String) (az al : Int) (o : String) :
    Event.hillshadeCall i az al o ∉ (slopeSec e).1 := by
  unfold slopeSec
  split_ifs <;> simp

theorem hs_not_aspect (e : FinalEnv) (i : String) (az al : Int) (o : String) :
    Event.hillshadeCall i az al o ∉ (aspectSec e).1 := by
  unfold aspectSec
  split_ifs <;> simp

theorem hs_not_curvature (e : FinalEnv) (i : String) (az al : Int) (o : String) :
    Event.hillshadeCall i az al o ∉ (curvatureSec e).1 := by
  unfold curvatureSec
  split_ifs <;> simp

theorem hs_not_extract (e : FinalEnv) (i : String) (az al : Int) (o : String) :
    Event.hillshadeCall i az al o ∉ (extractSec e).1 := by
  unfold extractSec
  split_ifs <;> simp

theorem hs_not_addLayers (e : FinalEnv) (i : String) (az al : Int) (o : String) :
    Event.hillshadeCall i az al o ∉ (addLayersSec e).1 := by
  unfold addLayersSec addOne
  split_ifs <;> simp

theorem hs_not_move (e : FinalEnv) (i : String) (az al : Int) (o : String) :
    Event.hillshadeCall i az al o ∉ (moveSec e).1 := by
  unfold moveSec
  split_ifs <;> simp [movePrints]

theorem hs_not_point2 (e : FinalEnv) (i : String) (az al : Int) (o : String) :
    Event.hillshadeCall i az al o ∉ (point2Sec e).1 := by
  unfold point2Sec
  split_ifs <;> simp

theorem hs_not_layerOrder (e : FinalEnv) (i : String) (az al : Int) (o : String) :
    Event.hillshadeCall i az al o ∉ (layerOrderSec e).1 := by
  simp [layerOrderSec]

theorem hs_not_someTool (e : FinalEnv) (i : String) (az al : Int) (o : String) :
    Event.hillshadeCall i az al o ∉ (someToolSec e).1 := by
  unfold someToolSec
  split_ifs <;> simp

theorem hs_not_cleanupF (e : FinalEnv) (i : String) (az al : Int) (o : String) :
    Event.hillshadeCall i az al o ∉ (cleanupSecF e).1 := by
  simp [cleanupSecF]

theorem hillshadeSec_params (e : FinalEnv) {i : String} {az al : Int} {o : String}
    (h : Event.hillshadeCall i az al o ∈ (hillshadeSec e).1) :
    az = 315 ∧ al = 45 ∧ i = e.clippedDem := by
  unfold hillshadeSec at h
  split_ifs at h <;> simp at h <;> exact ⟨h.2.1, h.2.2.1, h.1⟩

/-! The claim theorems. -/

/-- C1: clip_dem.py flags the point extent and the DEM extent as
non-overlapping (AddError plus raise) if and only if the buffered point
rectangle A and the DEM rectangle B satisfy the AABB disjoint test
A.xmin > B.xmax or A.xmax < B.xmin or A.ymin > B.ymax or A.ymax < B.ymin;
in particular the test holds on A=(0,0,10,10), B=(20,20,30,30) and fails on
A=(0,0,10,10), B=(5,5,15,15). -/
theorem clip_overlap_flagged_iff (e : ClipEnv)
    (h1 : lonField ∈ e.fieldNames) (h2 : latField ∈ e.fieldNames)
    (h3 : e.demExists = true) (h4 : e.demDataType = rasterDatasetType) :
    (((clipDemRun e).2 = Outcome.raised overlapErrText ∧
        Event.errorMsg overlapErrText ∈ (clipDemRun e).1) ↔
      aabbDisjoint (bufferSteps e.pointsExtent clipBuffer) e.demExtent = true) ∧
    aabbDisjoint { xmin := 0, ymin := 0, xmax := 10, ymax := 10 }
      { xmin := 20, ymin := 20, xmax := 30, ymax := 30 } = true ∧
    aabbDisjoint { xmin := 0, ymin := 0, xmax := 10, ymax := 10 }
      { xmin := 5, ymin := 5, xmax := 15, ymax := 15 } = false := by
  refine ⟨?_, by decide, by decide⟩
  have hing := ingestSecC_ok e h1 h2 h3 h4
  cases hb : aabbDisjoint (bufferSteps e.pointsExtent clipBuffer) e.demExtent with
  | true =>
      have hd := (aabbDisjoint_true_iff _ _).mp hb
      have hov : overlapSecC e =
          (extentMsgsC e ++ [Event.errorMsg overlapErrText], Outcome.raised overlapErrText) := by
        unfold overlapSecC
        rw [if_pos hd]
      have hrun : clipDemRun e =
          ((ingestSecC e).1 ++ (extentMsgsC e ++ [Event.errorMsg overlapErrText]),
            Outcome.raised overlapErrText) := by
        unfold clipDemRun
        rw [runSeq_of_raised _ hov, runSeq_of_success _ (by rw [hing])]
      rw [hrun]
      simp
  | false =>
      have hnd := (aabbDisjoint_false_iff _ _).mp hb
      have hov : overlapSecC e = (extentMsgsC e, Outcome.success) := by
        unfold overlapSecC
        rw [if_neg hnd]
      cases hcf : e.clipFails with
      | false =>
          have hout : (clipDemRun e).2 = Outcome.success := by
            simp [clipDemRun, runSeq, hing, hov, clipSecC, hcf, cleanupSecC]
          simp [hout]
      | true =>
          have hne : clipFailText ≠ overlapErrText := by decide
          have hout : (clipDemRun e).2 = Outcome.raised clipFailText := by
            simp [clipDemRun, runSeq, hing, hov, clipSecC, hcf]
          simp [hout, hne]

/-- C2: the buffer-expansion step maps a rectangle (xmin, ymin, xmax, ymax)
and a margin m to exactly (xmin-m, ymin-m, xmax+m, ymax+m); the margin is
200000 in clip_dem.py and 5000 in ArthurGEOG567_Final.py, and each script
passes the so-expanded point extent to its Clip call. -/
theorem buffer_expansion_exact (r : Rect) (m : ℚ) (_hm : 0 < m)
    (ec : ClipEnv) (ef : FinalEnv)
    (hc1 : lonField ∈ ec.fieldNames) (hc2 : latField ∈ ec.fieldNames)
    (hc3 : ec.demExists = true) (hc4 : ec.demDataType = rasterDatasetType)
    (hc5 : aabbDisjoint (bufferSteps ec.pointsExtent clipBuffer) ec.demExtent = false)
    (hf1 : lonField ∈ ef.fieldNames) (hf2 : latField ∈ ef.fieldNames)
    (hf3 : ef.demExists = true) (hf4 : ef.demDataType = rasterDatasetType)
    (hf5 : ef.projectRasterFails = false) :
    bufferSteps r m =
      { xmin := r.xmin - m, ymin := r.ymin - m, xmax := r.xmax + m, ymax := r.ymax + m } ∧
    clipBuffer = 200000 ∧ finalBuffer = 5000 ∧
    Event.clip ec.demPath (bufferSteps ec.pointsExtent clipBuffer) ec.clippedDem ∈
      (clipDemRun ec).1 ∧
    Event.clip projectedDemName (bufferSteps ef.pointsExtent finalBuffer) ef.clippedDem ∈
      (finalRun ef).1 := by
  refine ⟨rfl, rfl, rfl, ?_, ?_⟩
  · have hing := ingestSecC_ok ec hc1 hc2 hc3 hc4
    have hnd := (aabbDisjoint_false_iff _ _).mp hc5
    have hov : overlapSecC ec = (extentMsgsC ec, Outcome.success) := by
      unfold overlapSecC
      rw [if_neg hnd]
    unfold clipDemRun
    apply runSeq_mem_right (by rw [hing])
    apply runSeq_mem_right (by rw [hov])
    apply runSeq_mem_left
    unfold clipSecC
    split_ifs <;> simp
  · have hing := ingestSecF_ok ef hf1 hf2 hf3 hf4
    apply finalRun_mem_of_inner
    unfold finalInner
    apply runSeq_mem_right (by rw [hing])
    apply runSeq_mem_right (by simp [projectRasterSec, hf5])
    apply runSeq_mem_left
    unfold clipSecF
    split_ifs <;> simp

/-- C3: when the converted table lacks the exact field name Longitude or
Latitude, each script logs the user-facing field error and raises, and no
geometry-construction toolbox call happens: XYTableToPoint is never called
and the only toolbox call in the trace is the initial TableToTable
conversion. -/
theorem missing_fields_rejected_before_geometry (ec : ClipEnv) (ef : FinalEnv)
    (hc : ¬ (lonField ∈ ec.fieldNames ∧ latField ∈ ec.fieldNames))
    (hf : ¬ (lonField ∈ ef.fieldNames ∧ latField ∈ ef.fieldNames)) :
    ((clipDemRun ec).2 = Outcome.raised fieldErrText ∧
      Event.errorMsg fieldErrText ∈ (clipDemRun ec).1 ∧
      Event.toolCall xyTableToPointName ∉ (clipDemRun ec).1 ∧
      ∀ n, Event.toolCall n ∈ (clipDemRun ec).1 → n = tableToTableName) ∧
    ((finalRun ef).2 = Outcome.raised fieldErrText ∧
      Event.errorMsg fieldErrText ∈ (finalRun ef).1 ∧
      Event.toolCall xyTableToPointName ∉ (finalRun ef).1 ∧
      ∀ n, Event.toolCall n ∈ (finalRun ef).1 → n = tableToTableName) := by
  have hxy : xyTableToPointName ≠ tableToTableName := by decide
  constructor
  · have hing := ingestSecC_missing ec (not_and_or.mp hc)
    have hrun : clipDemRun ec =
        ([Event.toolCall tableToTableName, Event.errorMsg fieldErrText],
          Outcome.raised fieldErrText) := by
      unfold clipDemRun
      exact runSeq_of_raised _ hing
    rw [hrun]
    refine ⟨rfl, by simp, by simp [hxy], ?_⟩
    intro n hn
    simpa using hn
  · have hing := ingestSecF_missing ef (not_and_or.mp hf)
    have hinner : finalInner ef =
        ([Event.toolCall tableToTableName, Event.errorMsg fieldErrText],
          Outcome.raised fieldErrText) := by
      unfold finalInner
      exact runSeq_of_raised _ hing
    have hrun := finalRun_raised_of_inner hinner
    rw [hrun]
    refine ⟨rfl, by simp, by simp [hxy], ?_⟩
    intro n hn
    simpa using hn

/-- C9: the required-column check is an exact, case-sensitive string
comparison: whenever the exact strings Longitude and Latitude are not both
among the field names (for example when only case variants such as
longitude or LATITUDE are present), each script raises the field error. -/
theorem field_check_case_sensitive (ec : ClipEnv) (ef : FinalEnv)
    (hc : lonField ∉ ec.fieldNames ∨ latField ∉ ec.fieldNames)
    (hf : lonField ∉ ef.fieldNames ∨ latField ∉ ef.fieldNames) :
    (clipDemRun ec).2 = Outcome.raised fieldErrText ∧
    (finalRun ef).2 = Outcome.raised fieldErrText := by
  constructor
  · have hing := ingestSecC_missing ec hc
    have hrun : clipDemRun ec =
        ([Event.toolCall tableToTableName, Event.errorMsg fieldErrText],
          Outcome.raised fieldErrText) := by
      unfold clipDemRun
      exact runSeq_of_raised _ hing
    rw [hrun]
  · have hing := ingestSecF_missing ef hf
    have hinner : finalInner ef =
        ([Event.toolCall tableToTableName, Event.errorMsg fieldErrText],
          Outcome.raised fieldErrText) := by
      unfold finalInner
      exact runSeq_of_raised _ hing
    rw [finalRun_raised_of_inner hinner]

/-- C4: when the DEM path does not reference an existing dataset, or the
dataset is not of type RasterDataset, each script logs a user-facing error
and raises (the Python ValueError is modelled by Outcome.raised), and no
clipping or derivation toolbox call is reached. -/
theorem invalid_dem_rejected (ec : ClipEnv) (ef : FinalEnv)
    (hc : ec.demExists = false ∨ ec.demDataType ≠ rasterDatasetType)
    (hf : ef.demExists = false ∨ ef.demDataType ≠ rasterDatasetType) :
    ((∃ m, (clipDemRun ec).2 = Outcome.raised m ∧ Event.errorMsg m ∈ (clipDemRun ec).1) ∧
      ∀ a r b, Event.clip a r b ∉ (clipDemRun ec).1) ∧
    ((∃ m, (finalRun ef).2 = Outcome.raised m ∧ Event.errorMsg m ∈ (finalRun ef).1) ∧
      (∀ a r b, Event.clip a r b ∉ (finalRun ef).1) ∧
      (∀ a b, Event.slope a b ∉ (finalRun ef).1) ∧
      (∀ a b, Event.aspect a b ∉ (finalRun ef).1) ∧
      (∀ a b, Event.curvature a b ∉ (finalRun ef).1) ∧
      (∀ i az al o, Event.hillshadeCall i az al o ∉ (finalRun ef).1)) := by
  constructor
  · by_cases hfld : lonField ∈ ec.fieldNames ∧ latField ∈ ec.fieldNames
    · have hing : ∃ tr m, ingestSecC ec = (tr, Outcome.raised m) ∧
          Event.errorMsg m ∈ tr ∧ ∀ a r b, Event.clip a r b ∉ tr := by
        rcases hc with hex | htyp
        · exact ⟨_, _, ingestSecC_noDem ec hfld.1 hfld.2 hex, by simp, by simp⟩
        · cases hex2 : ec.demExists with
          | false => exact ⟨_, _, ingestSecC_noDem ec hfld.1 hfld.2 hex2, by simp, by simp⟩
          | true => exact ⟨_, _, ingestSecC_badType ec hfld.1 hfld.2 hex2 htyp, by simp, by simp⟩
      obtain ⟨tr, msg, hing, hmem, hnoclip⟩ := hing
      have hrun : clipDemRun ec = (tr, Outcome.raised msg) := by
        unfold clipDemRun
        exact runSeq_of_raised _ hing
      rw [hrun]
      exact ⟨⟨msg, rfl, hmem⟩, hnoclip⟩
    · have hing := ingestSecC_missing ec (not_and_or.mp hfld)
      have hrun : clipDemRun ec =
          ([Event.toolCall tableToTableName, Event.errorMsg fieldErrText],
            Outcome.raised fieldErrText) := by
        unfold clipDemRun
        exact runSeq_of_raised _ hing
      rw [hrun]
      exact ⟨⟨fieldErrText, rfl, by simp⟩, by simp⟩
  · by_cases hfld : lonField ∈ ef.fieldNames ∧ latField ∈ ef.fieldNames
    · have hing : ∃ tr m, ingestSecF ef = (tr, Outcome.raised m) ∧
          Event.errorMsg m ∈ tr ∧ (∀ a r b, Event.clip a r b ∉ tr) ∧
          (∀ a b, Event.slope a b ∉ tr) ∧ (∀ a b, Event.aspect a b ∉ tr) ∧
          (∀ a b, Event.curvature a b ∉ tr) ∧
          (∀ i az al o, Event.hillshadeCall i az al o ∉ tr) := by
        rcases hf with hex | htyp
        · exact ⟨_, _, ingestSecF_noDem ef hfld.1 hfld.2 hex,
            by simp, by simp, by simp, by simp, by simp, by simp⟩
        · cases hex2 : ef.demExists with
          | false => exact ⟨_, _, ingestSecF_noDem ef hfld.1 hfld.2 hex2,
              by simp, by simp, by simp, by simp, by simp, by simp⟩
          | true => exact ⟨_, _, ingestSecF_badType ef hfld.1 hfld.2 hex2 htyp,
              by simp, by simp, by simp, by simp, by simp, by simp⟩
      obtain ⟨tr, msg, hing, hmem, hc1, hc2, hc3, hc4, hc5⟩ := hing
      have hinner : finalInner ef = (tr, Outcome.raised msg) := by
        unfold finalInner
        exact runSeq_of_raised _ hing
      rw [finalRun_raised_of_inner hinner]
      refine ⟨⟨msg, rfl, by simp [hmem]⟩, ?_, ?_, ?_, ?_, ?_⟩ <;>
        · intro a
          simp_all
    · have hing := ingestSecF_missing ef (not_and_or.mp hfld)
      have hinner : finalInner ef =
          ([Event.toolCall tableToTableName, Event.errorMsg fieldErrText],
            Outcome.raised fieldErrText) := by
        unfold finalInner
        exact runSeq_of_raised _ hing
      rw [finalRun_raised_of_inner hinner]
      exact ⟨⟨fieldErrText, rfl, by simp⟩, by simp, by simp, by simp, by simp, by simp⟩

/-- C7: on every run of either script that completes without an uncaught
exception, all temporary in-memory datasets created by the run (temp_table
and temp_fc_wgs84 in both scripts, plus projected_dem in
ArthurGEOG567_Final.py) have been deleted by script end. -/
theorem temps_deleted_on_success (ec : ClipEnv) (ef : FinalEnv)
    (hc : (clipDemRun ec).2 = Outcome.success)
    (hf : (finalRun ef).2 = Outcome.success) :
    (Event.deleteData tempTableName ∈ (clipDemRun ec).1 ∧
      Event.deleteData tempFcName ∈ (clipDemRun ec).1) ∧
    (Event.deleteData tempTableName ∈ (finalRun ef).1 ∧
      Event.deleteData tempFcName ∈ (finalRun ef).1 ∧
      Event.deleteData projectedDemName ∈ (finalRun ef).1) := by
  constructor
  · unfold clipDemRun at hc ⊢
    obtain ⟨hA, hrest⟩ := runSeq_snd_success hc
    obtain ⟨hB, hrest⟩ := runSeq_snd_success hrest
    obtain ⟨hC, hD⟩ := runSeq_snd_success hrest
    constructor <;>
      · apply runSeq_mem_right hA
        apply runSeq_mem_right hB
        apply runSeq_mem_right hC
        simp [cleanupSecC]
  · obtain ⟨hin, htr⟩ := finalRun_success hf
    rw [htr]
    unfold finalInner at hin ⊢
    obtain ⟨g1, hrest⟩ := runSeq_snd_success hin
    obtain ⟨g2, hrest⟩ := runSeq_snd_success hrest
    obtain ⟨g3, hrest⟩ := runSeq_snd_success hrest
    obtain ⟨g4, hrest⟩ := runSeq_snd_success hrest
    obtain ⟨g5, hrest⟩ := runSeq_snd_success hrest
    obtain ⟨g6, hrest⟩ := runSeq_snd_success hrest
    obtain ⟨g7, hrest⟩ := runSeq_snd_success hrest
    obtain ⟨g8, hrest⟩ := runSeq_snd_success hrest
    obtain ⟨g9, hrest⟩ := runSeq_snd_success hrest
    obtain ⟨g10, hrest⟩ := runSeq_snd_success hrest
    obtain ⟨g11, hrest⟩ := runSeq_snd_success hrest
    obtain ⟨g12, hrest⟩ := runSeq_snd_success hrest
    obtain ⟨g13, g14⟩ := runSeq_snd_success hrest
    refine ⟨?_, ?_, ?_⟩ <;>
      · apply runSeq_mem_right g1
        apply runSeq_mem_right g2
        apply runSeq_mem_right g3
        apply runSeq_mem_right g4
        apply runSeq_mem_right g5
        apply runSeq_mem_right g6
        apply runSeq_mem_right g7
        apply runSeq_mem_right g8
        apply runSeq_mem_right g9
        apply runSeq_mem_right g10
        apply runSeq_mem_right g11
        apply runSeq_mem_right g12
        apply runSeq_mem_right g13
        simp [cleanupSecF]

/-- C5 counterexample: a successful run of ArthurGEOG567_Final.py in which
the hillshade raster is derived (with azimuth 315, altitude 45) but its path
is never among the rasters passed to the sampling call
ExtractMultiValuesToPoints, so not all four derived rasters are sampled. -/
theorem hillshade_not_sampled_cex :
    (finalRun goodEnvF).2 = Outcome.success ∧
    Event.hillshadeCall goodEnvF.clippedDem 315 45 (hillshadeRasterPath goodEnvF) ∈
      (finalRun goodEnvF).1 ∧
    hillshadeRasterPath goodEnvF ∉ sampledInputs (finalRun goodEnvF).1 := by
  refine ⟨by decide, by decide, by decide⟩

/-- C5 (amended): on a successful run of ArthurGEOG567_Final.py, the four
derived rasters (slope, aspect, curvature, hillshade) are computed from the
clipped DEM, and the clipped DEM, slope, aspect and curvature rasters -- but
not the hillshade raster -- are sampled at each point by
ExtractMultiValuesToPoints on the output point feature class (extractList
names exactly the four sampled rasters and their output fields). -/
theorem derived_rasters_sampled_amended (e : FinalEnv)
    (h : (finalRun e).2 = Outcome.success) :
    Event.slope e.clippedDem (slopeRasterPath e) ∈ (finalRun e).1 ∧
    Event.aspect e.clippedDem (aspectRasterPath e) ∈ (finalRun e).1 ∧
    Event.curvature e.clippedDem (curvatureRasterPath e) ∈ (finalRun e).1 ∧
    Event.hillshadeCall e.clippedDem 315 45 (hillshadeRasterPath e) ∈ (finalRun e).1 ∧
    Event.extract (fcPathOf e) (extractList e) ∈ (finalRun e).1 := by
  obtain ⟨hin, htr⟩ := finalRun_success h
  rw [htr]
  unfold finalInner at hin ⊢
  obtain ⟨g1, hrest⟩ := runSeq_snd_success hin
  obtain ⟨g2, hrest⟩ := runSeq_snd_success hrest
  obtain ⟨g3, hrest⟩ := runSeq_snd_success hrest
  obtain ⟨g4, hrest⟩ := runSeq_snd_success hrest
  obtain ⟨g5, hrest⟩ := runSeq_snd_success hrest
  obtain ⟨g6, hrest⟩ := runSeq_snd_success hrest
  obtain ⟨g7, hrest⟩ := runSeq_snd_success hrest
  refine ⟨?_, ?_, ?_, ?_, ?_⟩
  · apply runSeq_mem_right g1
    apply runSeq_mem_right g2
    apply runSeq_mem_right g3
    apply runSeq_mem_left
    unfold slopeSec
    split_ifs <;> simp
  · apply runSeq_mem_right g1
    apply runSeq_mem_right g2
    apply runSeq_mem_right g3
    apply runSeq_mem_right g4
    apply runSeq_mem_left
    unfold aspectSec
    split_ifs <;> simp
  · apply runSeq_mem_right g1
    apply runSeq_mem_right g2
    apply runSeq_mem_right g3
    apply runSeq_mem_right g4
    apply runSeq_mem_right g5
    apply runSeq_mem_left
    unfold curvatureSec
    split_ifs <;> simp
  · apply runSeq_mem_right g1
    apply runSeq_mem_right g2
    apply runSeq_mem_right g3
    apply runSeq_mem_right g4
    apply runSeq_mem_right g5
    apply runSeq_mem_right g6
    apply runSeq_mem_left
    unfold hillshadeSec
    split_ifs <;> simp
  · apply runSeq_mem_right g1
    apply runSeq_mem_right g2
    apply runSeq_mem_right g3
    apply runSeq_mem_right g4
    apply runSeq_mem_right g5
    apply runSeq_mem_right g6
    apply runSeq_mem_right g7
    apply runSeq_mem_left
    unfold extractSec
    split_ifs <;> simp

/-- C6 counterexample: a run of ArthurGEOG567_Final.py in which the
SomeTool_management call fails, the failure is caught and only printed (not
re-raised), and execution continues to the cleanup deletions and a normal
completion -- a toolbox-call failure that is caught and silently discarded. -/
theorem sometool_failure_discarded_cex :
    (finalRun someToolFailEnvF).2 = Outcome.success ∧
    Event.toolFailed someToolName ∈ (finalRun someToolFailEnvF).1 ∧
    Event.printMsg someToolErrText ∈ (finalRun someToolFailEnvF).1 ∧
    Event.deleteData tempTableName ∈ (finalRun someToolFailEnvF).1 := by
  refine ⟨by decide, by decide, by decide, by decide⟩

/-- C6 (amended): every toolbox-call failure in either script is left
uncaught or re-raised after a log message, EXCEPT the SomeTool_management
call of ArthurGEOG567_Final.py, whose failure is caught, printed and
discarded with execution continuing: a run of clip_dem.py that completes
normally contains no toolbox-call failure at all, and a run of
ArthurGEOG567_Final.py that completes normally contains no toolbox-call
failure other than possibly that of SomeTool_management. -/
theorem toolbox_failures_reraised_amended (ec : ClipEnv) (ef : FinalEnv) (n m : String)
    (hc : (clipDemRun ec).2 = Outcome.success)
    (hf : (finalRun ef).2 = Outcome.success) :
    Event.toolFailed n ∉ (clipDemRun ec).1 ∧
    (Event.toolFailed m ∈ (finalRun ef).1 → m = someToolName) := by
  constructor
  · unfold clipDemRun at hc ⊢
    obtain ⟨hA, hrest⟩ := runSeq_snd_success hc
    obtain ⟨hB, hrest⟩ := runSeq_snd_success hrest
    obtain ⟨hC, hD⟩ := runSeq_snd_success hrest
    intro hmem
    rcases runSeq_mem_split hmem with h | hmem
    · exact tf_not_ingestC ec n h
    rcases runSeq_mem_split hmem with h | hmem
    · exact tf_not_overlapC ec n h
    rcases runSeq_mem_split hmem with h | h
    · exact tf_not_clipC ec n hC h
    · exact tf_not_cleanupC ec n h
  · obtain ⟨hin, htr⟩ := finalRun_success hf
    rw [htr]
    unfold finalInner at hin ⊢
    obtain ⟨g1, hrest⟩ := runSeq_snd_success hin
    obtain ⟨g2, hrest⟩ := runSeq_snd_success hrest
    obtain ⟨g3, hrest⟩ := runSeq_snd_success hrest
    obtain ⟨g4, hrest⟩ := runSeq_snd_success hrest
    obtain ⟨g5, hrest⟩ := runSeq_snd_success hrest
    obtain ⟨g6, hrest⟩ := runSeq_snd_success hrest
    obtain ⟨g7, hrest⟩ := runSeq_snd_success hrest
    obtain ⟨g8, hrest⟩ := runSeq_snd_success hrest
    obtain ⟨g9, hrest⟩ := runSeq_snd_success hrest
    obtain ⟨g10, hrest⟩ := runSeq_snd_success hrest
    obtain ⟨g11, hrest⟩ := runSeq_snd_success hrest
    obtain ⟨g12, hrest⟩ := runSeq_snd_success hrest
    obtain ⟨g13, g14⟩ := runSeq_snd_success hrest
    intro hmem
    rcases runSeq_mem_split hmem with h | hmem
    · exact absurd h (tf_not_ingestF ef m)
    rcases runSeq_mem_split hmem with h | hmem
    · exact absurd h (tf_not_projectRaster ef m g2)
    rcases runSeq_mem_split hmem with h | hmem
    · exact absurd h (tf_not_clipF ef m g3)
    rcases runSeq_mem_split hmem with h | hmem
    · exact absurd h (tf_not_slope ef m g4)
    rcases runSeq_mem_split hmem with h | hmem
    · exact absurd h (tf_not_aspect ef m g5)
    rcases runSeq_mem_split hmem with h | hmem
    · exact absurd h (tf_not_curvature ef m g6)
    rcases runSeq_mem_split hmem with h | hmem
    · exact absurd h (tf_not_hillshadeSec ef m g7)
    rcases runSeq_mem_split hmem with h | hmem
    · exact absurd h (tf_not_extract ef m g8)
    rcases runSeq_mem_split hmem with h | hmem
    · exact absurd h (tf_not_addLayers ef m)
    rcases runSeq_mem_split hmem with h | hmem
    · exact absurd h (tf_not_move ef m g10)
    rcases runSeq_mem_split hmem with h | hmem
    · exact absurd h (tf_not_point2 ef m g11)
    rcases runSeq_mem_split hmem with h | hmem
    · exact absurd h (tf_not_layerOrder ef m)
    rcases runSeq_mem_split hmem with h | h
    · exact tf_someTool ef m h
    · exact absurd h (tf_not_cleanupF ef m)

/-- C8: every Hillshade derivation performed by ArthurGEOG567_Final.py, on
every input, uses the fixed literal parameters azimuth 315 and altitude 45
and takes the clipped DEM as input; no script input feeds these parameters. -/
theorem hillshade_params_fixed (e : FinalEnv) (i : String) (az al : Int) (o : String)
    (h : Event.hillshadeCall i az al o ∈ (finalRun e).1) :
    az = 315 ∧ al = 45 ∧ i = e.clippedDem := by
  rcases finalRun_mem_split h with h | ⟨s, hs⟩
  · unfold finalInner at h
    rcases runSeq_mem_split h with h | h
    · exact absurd h (hs_not_ingestF e i az al o)
    rcases runSeq_mem_split h with h | h
    · exact absurd h (hs_not_projectRaster e i az al o)
    rcases runSeq_mem_split h with h | h
    · exact absurd h (hs_not_clipF e i az al o)
    rcases runSeq_mem_split h with h | h
    · exact absurd h (hs_not_slope e i az al o)
    rcases runSeq_mem_split h with h | h
    · exact absurd h (hs_not_aspect e i az al o)
    rcases runSeq_mem_split h with h | h
    · exact absurd h (hs_not_curvature e i az al o)
    rcases runSeq_mem_split h with h | h
    · exact hillshadeSec_params e h
    rcases runSeq_mem_split h with h | h
    · exact absurd h (hs_not_extract e i az al o)
    rcases runSeq_mem_split h with h | h
    · exact absurd h (hs_not_addLayers e i az al o)
    rcases runSeq_mem_split h with h | h
    · exact absurd h (hs_not_move e i az al o)
    rcases runSeq_mem_split h with h | h
    · exact absurd h (hs_not_point2 e i az al o)
    rcases runSeq_mem_split h with h | h
    · exact absurd h (hs_not_layerOrder e i az al o)
    rcases runSeq_mem_split h with h | h
    · exact absurd h (hs_not_someTool e i az al o)
    · exact absurd h (hs_not_cleanupF e i az al o)
  · simp at hs

/-- C10: the message reported after the first attempt to add the point
feature class to the map is decided by the elevation_layer variable, not by
the point layer: on every run that reaches that point with the elevation
layer added and the point layer add failed, the script still reports
"Point Feature Class added to the map." right after the failed add. -/
theorem point_add_message_uses_elevation_layer (e : FinalEnv)
    (h1 : lonField ∈ e.fieldNames) (h2 : latField ∈ e.fieldNames)
    (h3 : e.demExists = true) (h4 : e.demDataType = rasterDatasetType)
    (h5 : e.projectRasterFails = false) (h6 : e.clipFails = false)
    (h7 : e.slopeFails = false) (h8 : e.aspectFails = false)
    (h9 : e.curvatureFails = false) (h10 : e.hillshadeFails = false)
    (h11 : e.extractFails = false)
    (helev : e.elevationAdded = true) (hpt : e.pointAdded = false) :
    Event.message pointFcAddedMsg ∈ (finalRun e).1 ∧
    Event.addLayer (fcPathOf e) false ∈ (finalRun e).1 := by
  have s1 : (ingestSecF e).2 = Outcome.success := by rw [ingestSecF_ok e h1 h2 h3 h4]
  have s2 : (projectRasterSec e).2 = Outcome.success := by simp [projectRasterSec, h5]
  have s3 : (clipSecF e).2 = Outcome.success := by simp [clipSecF, h6]
  have s4 : (slopeSec e).2 = Outcome.success := by simp [slopeSec, h7]
  have s5 : (aspectSec e).2 = Outcome.success := by simp [aspectSec, h8]
  have s6 : (curvatureSec e).2 = Outcome.success := by simp [curvatureSec, h9]
  have s7 : (hillshadeSec e).2 = Outcome.success := by simp [hillshadeSec, h10]
  have s8 : (extractSec e).2 = Outcome.success := by simp [extractSec, h11]
  constructor <;>
  · apply finalRun_mem_of_inner
    unfold finalInner
    apply runSeq_mem_right s1
    apply runSeq_mem_right s2
    apply runSeq_mem_right s3
    apply runSeq_mem_right s4
    apply runSeq_mem_right s5
    apply runSeq_mem_right s6
    apply runSeq_mem_right s7
    apply runSeq_mem_right s8
    apply runSeq_mem_left
    unfold addLayersSec addOne
    split_ifs <;> simp_all

/-! Witnesses: each hypothesized claim theorem applied at a concrete
environment, with every hypothesis discharged there.  Rational arithmetic
does not reduce by kernel evaluation, so the two facts about the good
clip_dem.py environment that depend on it are established once here by
norm_num. -/

theorem goodEnvC_nonoverlap :
    aabbDisjoint (bufferSteps goodEnvC.pointsExtent clipBuffer) goodEnvC.demExtent = false := by
  rw [aabbDisjoint_false_iff]
  norm_num [bufferSteps, goodEnvC, clipBuffer]

theorem goodEnvC_success : (clipDemRun goodEnvC).2 = Outcome.success := by
  have hing := ingestSecC_ok goodEnvC (by decide) (by decide) rfl rfl
  have hnd := (aabbDisjoint_false_iff _ _).mp goodEnvC_nonoverlap
  have hov : overlapSecC goodEnvC = (extentMsgsC goodEnvC, Outcome.success) := by
    unfold overlapSecC
    rw [if_neg hnd]
  have hclip : clipSecC goodEnvC =
      ([Event.clip goodEnvC.demPath (bufferSteps goodEnvC.pointsExtent clipBuffer)
          goodEnvC.clippedDem,
        Event.message (clipOkPre ++ goodEnvC.clippedDem)], Outcome.success) := by
    unfold clipSecC
    rw [if_neg (by decide)]
  simp [clipDemRun, runSeq, hing, hov, hclip, cleanupSecC]

theorem clip_overlap_flagged_iff_witness :
    (lonField ∈ goodEnvC.fieldNames ∧ latField ∈ goodEnvC.fieldNames ∧
      goodEnvC.demExists = true ∧ goodEnvC.demDataType = rasterDatasetType) ∧
    ((((clipDemRun goodEnvC).2 = Outcome.raised overlapErrText ∧
        Event.errorMsg overlapErrText ∈ (clipDemRun goodEnvC).1) ↔
      aabbDisjoint (bufferSteps goodEnvC.pointsExtent clipBuffer) goodEnvC.demExtent = true) ∧
    aabbDisjoint { xmin := 0, ymin := 0, xmax := 10, ymax := 10 }
      { xmin := 20, ymin := 20, xmax := 30, ymax := 30 } = true ∧
    aabbDisjoint { xmin := 0, ymin := 0, xmax := 10, ymax := 10 }
      { xmin := 5, ymin := 5, xmax := 15, ymax := 15 } = false) :=
  ⟨⟨by decide, by decide, rfl, rfl⟩,
    clip_overlap_flagged_iff goodEnvC (by decide) (by decide) rfl rfl⟩

theorem buffer_expansion_exact_witness :
    ((0 : ℚ) < 1 ∧
      lonField ∈ goodEnvC.fieldNames ∧ latField ∈ goodEnvC.fieldNames ∧
      goodEnvC.demExists = true ∧ goodEnvC.demDataType = rasterDatasetType ∧
      aabbDisjoint (bufferSteps goodEnvC.pointsExtent clipBuffer) goodEnvC.demExtent = false ∧
      lonField ∈ goodEnvF.fieldNames ∧ latField ∈ goodEnvF.fieldNames ∧
      goodEnvF.demExists = true ∧ goodEnvF.demDataType = rasterDatasetType ∧
      goodEnvF.projectRasterFails = false) ∧
    (bufferSteps { xmin := 1, ymin := 2, xmax := 3, ymax := 4 } 1 =
        { xmin := (1 : ℚ) - 1, ymin := (2 : ℚ) - 1,
          xmax := (3 : ℚ) + 1, ymax := (4 : ℚ) + 1 } ∧
      clipBuffer = 200000 ∧ finalBuffer = 5000 ∧
      Event.clip goodEnvC.demPath (bufferSteps goodEnvC.pointsExtent clipBuffer)
        goodEnvC.clippedDem ∈ (clipDemRun goodEnvC).1 ∧
      Event.clip projectedDemName (bufferSteps goodEnvF.pointsExtent finalBuffer)
        goodEnvF.clippedDem ∈ (finalRun goodEnvF).1) :=
  ⟨⟨by decide, by decide, by decide, rfl, rfl, goodEnvC_nonoverlap, by decide, by decide, rfl, rfl, rfl⟩,
    buffer_expansion_exact { xmin := 1, ymin := 2, xmax := 3, ymax := 4 } 1 (by decide)
      goodEnvC goodEnvF (by decide) (by decide) rfl rfl goodEnvC_nonoverlap
      (by decide) (by decide) rfl rfl rfl⟩

theorem missing_fields_rejected_before_geometry_witness :
    (¬ (lonField ∈ badFieldsEnvC.fieldNames ∧ latField ∈ badFieldsEnvC.fieldNames) ∧
      ¬ (lonField ∈ badFieldsEnvF.fieldNames ∧ latField ∈ badFieldsEnvF.fieldNames)) ∧
    (((clipDemRun badFieldsEnvC).2 = Outcome.raised fieldErrText ∧
      Event.errorMsg fieldErrText ∈ (clipDemRun badFieldsEnvC).1 ∧
      Event.toolCall xyTableToPointName ∉ (clipDemRun badFieldsEnvC).1 ∧
      ∀ n, Event.toolCall n ∈ (clipDemRun badFieldsEnvC).1 → n = tableToTableName) ∧
    ((finalRun badFieldsEnvF).2 = Outcome.raised fieldErrText ∧
      Event.errorMsg fieldErrText ∈ (finalRun badFieldsEnvF).1 ∧
      Event.toolCall xyTableToPointName ∉ (finalRun badFieldsEnvF).1 ∧
      ∀ n, Event.toolCall n ∈ (finalRun badFieldsEnvF).1 → n = tableToTableName)) :=
  ⟨⟨by decide, by decide⟩,
    missing_fields_rejected_before_geometry badFieldsEnvC badFieldsEnvF
      (by decide) (by decide)⟩

theorem field_check_case_sensitive_witness :
    ((lonField ∉ caseEnvC.fieldNames ∨ latField ∉ caseEnvC.fieldNames) ∧
      (lonField ∉ caseEnvF.fieldNames ∨ latField ∉ caseEnvF.fieldNames)) ∧
    ((clipDemRun caseEnvC).2 = Outcome.raised fieldErrText ∧
      (finalRun caseEnvF).2 = Outcome.raised fieldErrText) :=
  ⟨⟨Or.inl (by decide), Or.inl (by decide)⟩,
    field_check_case_sensitive caseEnvC caseEnvF (Or.inl (by decide)) (Or.inl (by decide))⟩

theorem invalid_dem_rejected_witness :
    ((noDemEnvC.demExists = false ∨ noDemEnvC.demDataType ≠ rasterDatasetType) ∧
      (noDemEnvF.demExists = false ∨ noDemEnvF.demDataType ≠ rasterDatasetType)) ∧
    (((∃ m, (clipDemRun noDemEnvC).2 = Outcome.raised m ∧
        Event.errorMsg m ∈ (clipDemRun noDemEnvC).1) ∧
      ∀ a r b, Event.clip a r b ∉ (clipDemRun noDemEnvC).1) ∧
    ((∃ m, (finalRun noDemEnvF).2 = Outcome.raised m ∧
        Event.errorMsg m ∈ (finalRun noDemEnvF).1) ∧
      (∀ a r b, Event.clip a r b ∉ (finalRun noDemEnvF).1) ∧
      (∀ a b, Event.slope a b ∉ (finalRun noDemEnvF).1) ∧
      (∀ a b, Event.aspect a b ∉ (finalRun noDemEnvF).1) ∧
      (∀ a b, Event.curvature a b ∉ (finalRun noDemEnvF).1) ∧
      (∀ i az al o, Event.hillshadeCall i az al o ∉ (finalRun noDemEnvF).1))) :=
  ⟨⟨Or.inl rfl, Or.inl rfl⟩,
    invalid_dem_rejected noDemEnvC noDemEnvF (Or.inl rfl) (Or.inl rfl)⟩

theorem temps_deleted_on_success_witness :
    ((clipDemRun goodEnvC).2 = Outcome.success ∧
      (finalRun goodEnvF).2 = Outcome.success) ∧
    ((Event.deleteData tempTableName ∈ (clipDemRun goodEnvC).1 ∧
      Event.deleteData tempFcName ∈ (clipDemRun goodEnvC).1) ∧
    (Event.deleteData tempTableName ∈ (finalRun goodEnvF).1 ∧
      Event.deleteData tempFcName ∈ (finalRun goodEnvF).1 ∧
      Event.deleteData projectedDemName ∈ (finalRun goodEnvF).1)) :=
  ⟨⟨goodEnvC_success, by decide⟩,
    temps_deleted_on_success goodEnvC goodEnvF goodEnvC_success (by decide)⟩

theorem derived_rasters_sampled_amended_witness :
    (finalRun goodEnvF).2 = Outcome.success ∧
    (Event.slope goodEnvF.clippedDem (slopeRasterPath goodEnvF) ∈ (finalRun goodEnvF).1 ∧
    Event.aspect goodEnvF.clippedDem (aspectRasterPath goodEnvF) ∈ (finalRun goodEnvF).1 ∧
    Event.curvature goodEnvF.clippedDem (curvatureRasterPath goodEnvF) ∈ (finalRun goodEnvF).1 ∧
    Event.hillshadeCall goodEnvF.clippedDem 315 45 (hillshadeRasterPath goodEnvF) ∈
      (finalRun goodEnvF).1 ∧
    Event.extract (fcPathOf goodEnvF) (extractList goodEnvF) ∈ (finalRun goodEnvF).1) :=
  ⟨by decide, derived_rasters_sampled_amended goodEnvF (by decide)⟩

theorem toolbox_failures_reraised_amended_witness :
    ((clipDemRun goodEnvC).2 = Outcome.success ∧
      (finalRun someToolFailEnvF).2 = Outcome.success) ∧
    (Event.toolFailed clipToolName ∉ (clipDemRun goodEnvC).1 ∧
      (Event.toolFailed someToolName ∈ (finalRun someToolFailEnvF).1 →
        someToolName = someToolName)) :=
  ⟨⟨goodEnvC_success, by decide⟩,
    toolbox_failures_reraised_amended goodEnvC someToolFailEnvF clipToolName someToolName
      goodEnvC_success (by decide)⟩

theorem hillshade_params_fixed_witness :
    Event.hillshadeCall goodEnvF.clippedDem 315 45 (hillshadeRasterPath goodEnvF) ∈
      (finalRun goodEnvF).1 ∧
    ((315 : Int) = 315 ∧ (45 : Int) = 45 ∧ goodEnvF.clippedDem = goodEnvF.clippedDem) :=
  ⟨by decide,
    hillshade_params_fixed goodEnvF goodEnvF.clippedDem 315 45
      (hillshadeRasterPath goodEnvF) (by decide)⟩

theorem point_add_message_uses_elevation_layer_witness :
    (lonField ∈ pointFailEnvF.fieldNames ∧ latField ∈ pointFailEnvF.fieldNames ∧
      pointFailEnvF.demExists = true ∧ pointFailEnvF.demDataType = rasterDatasetType ∧
      pointFailEnvF.projectRasterFails = false ∧ pointFailEnvF.clipFails = false ∧
      pointFailEnvF.slopeFails = false ∧ pointFailEnvF.aspectFails = false ∧
      pointFailEnvF.curvatureFails = false ∧ pointFailEnvF.hillshadeFails = false ∧
      pointFailEnvF.extractFails = false ∧
      pointFailEnvF.elevationAdded = true ∧ pointFailEnvF.pointAdded = false) ∧
    (Event.message pointFcAddedMsg ∈ (finalRun pointFailEnvF).1 ∧
      Event.addLayer (fcPathOf pointFailEnvF) false ∈ (finalRun pointFailEnvF).1) :=
  ⟨⟨by decide, by decide, rfl, rfl, rfl, rfl, rfl, rfl, rfl, rfl, rfl, rfl, rfl⟩,
    point_add_message_uses_elevation_layer pointFailEnvF (by decide) (by decide)
      rfl rfl rfl rfl rfl rfl rfl rfl rfl rfl rfl⟩

end MattsRep
